import Mathlib

/-!
Shallow embedding of `citymapper/__init__.py`, a small client for the
Citymapper transit HTTP API.  Python values that can reach the coordinate
normaliser are modelled by the inductive `PyVal`; Python exceptions by
`PyErr`; the mutable client object by the structure `citymapper`, with the
methods `_transit`, `_make_url` and `_request` as pure state-passing
functions.  Wall-clock time is passed in explicitly as a rational `now`,
and the network call is represented by a `networkCalled` flag in a trace,
since the HTTP response itself is external to the program.
-/

set_option autoImplicit false

/-- The kinds of Python exception the module can raise:
`TypeError` and `IndexError` from `normalize_position`, `KeyError` from
`params.pop('node')`, plain `Exception` from `_transit`'s time validation,
and `StopIteration` from `_request`'s call-limit check. -/
inductive PyErr where
  | typeError (msg : String)
  | indexError (msg : String)
  | keyError (msg : String)
  | exception (msg : String)
  | stopIteration (msg : String)
deriving Repr, DecidableEq

/-- `True` exactly on `TypeError`. -/
def PyErr.isTypeError : PyErr → Bool
  | PyErr.typeError _ => true
  | _ => false

/-- `True` exactly on `IndexError`. -/
def PyErr.isIndexError : PyErr → Bool
  | PyErr.indexError _ => true
  | _ => false

/-- The universe of Python values the position-handling code distinguishes:
dicts (string keys, numeric values), lists of numbers, strings, bare
numbers, and `None`.  Numbers are modelled as rationals, which represent
every value the examples and doctests use exactly. -/
inductive PyVal where
  | dict (entries : List (String × ℚ))
  | list (elems : List ℚ)
  | str (s : String)
  | num (q : ℚ)
  | pynone
deriving Repr, DecidableEq

/-- `isinstance(x, dict)`. -/
def isdict : PyVal → Bool
  | PyVal.dict _ => true
  | _ => false

/-- `isinstance(x, str)`. -/
def isstr : PyVal → Bool
  | PyVal.str _ => true
  | _ => false

/-- `hasattr(x, "strip")`: among the modelled values only strings have it. -/
def hasStrip : PyVal → Bool
  | PyVal.str _ => true
  | _ => false

/-- `hasattr(x, "__getitem__")`: dicts, lists and strings are subscriptable. -/
def hasGetitem : PyVal → Bool
  | PyVal.dict _ => true
  | PyVal.list _ => true
  | PyVal.str _ => true
  | _ => false

/-- `hasattr(x, "__iter__")`: dicts and lists define it (Python 2 strings
iterate through `__getitem__` and do not define `__iter__`). -/
def hasIter : PyVal → Bool
  | PyVal.dict _ => true
  | PyVal.list _ => true
  | _ => false

/-- `islist(x)` from the source: `dict` and `str` are rejected by
`isinstance` checks, everything else is probed for capabilities. -/
def islist (x : PyVal) : Bool :=
  if isdict x then false
  else if isstr x then false
  else (!(hasStrip x) && hasGetitem x) || hasIter x

/-- `x[key]` on a dict: first binding of the key, `none` when absent
(Python dicts have unique keys, so first-match lookup is exact). -/
def dictGet : PyVal → String → Option ℚ
  | PyVal.dict es, k => es.lookup k
  | _, _ => Option.none

/-- `x[i]` on a value reached through the `islist` branch: a list yields
its `i`-th element or `IndexError`; a non-subscriptable value yields
`TypeError`. -/
def seqGet : PyVal → Nat → Except PyErr ℚ
  | PyVal.list es, i =>
    match es.get? i with
    | Option.some v => Except.ok v
    | Option.none => Except.error (PyErr.indexError "list index out of range")
  | _, _ => Except.error (PyErr.typeError "object is not subscriptable")

/-- The numerator of `q * 10^6` rounded to the nearest integer, ties to
even — the rounding `"{0:f}".format` applies at the sixth decimal place.
Intended for `q ≥ 0` (the caller strips the sign first); computed directly
on `q.num`/`q.den` so that `q * 10^6 = N / d` with `N = q.num * 10^6`. -/
def scaled6 (q : ℚ) : Nat :=
  let N : Nat := q.num.toNat * 1000000
  let d : Nat := q.den
  if N % d * 2 < d then N / d
  else if d < N % d * 2 then N / d + 1
  else if N / d % 2 = 0 then N / d else N / d + 1

/-- Left-pad a digit string with zeros to width `n`. -/
def padLeftZeros (s : String) (n : Nat) : String :=
  String.mk (List.replicate (n - s.length) '0') ++ s

/-- `"{0:f}".format(x)`: fixed-point form with exactly six digits
after the decimal point, sign first. -/
def formatFixed6 (q : ℚ) : String :=
  let mn : Nat := scaled6 (if q < 0 then -q else q)
  let ip : Nat := mn / 1000000
  let fp : Nat := mn % 1000000
  let body : String := toString ip ++ "." ++ padLeftZeros (toString fp) 6
  if q < 0 then "-" ++ body else body

/-- `s.rstrip(c)`: drop every trailing occurrence of `c`. -/
def rstripChar (s : String) (c : Char) : String :=
  String.mk ((s.data.reverse.dropWhile (fun a => a == c)).reverse)

/-- `float2str` from the source:
`"{0:f}".format(x).rstrip('0').rstrip('.')`. -/
def float2str (q : ℚ) : String :=
  rstripChar (rstripChar (formatFixed6 q) '0') '.'

/-- `normalize_position(x)` from the source: a dict must carry both `lat`
and `lng` keys, an `islist` value is subscripted at 0 and 1, anything else
raises `TypeError`. -/
def normalize_position (x : PyVal) : Except PyErr String :=
  if isdict x then
    match dictGet x "lat", dictGet x "lng" with
    | Option.some lat, Option.some lng =>
      Except.ok (float2str lat ++ "," ++ float2str lng)
    | _, _ =>
      Except.error (PyErr.typeError "Position dict must contain lat and lng keys.")
  else if islist x then
    match seqGet x 0 with
    | Except.error e => Except.error e
    | Except.ok lat =>
      match seqGet x 1 with
      | Except.error e => Except.error e
      | Except.ok lng => Except.ok (float2str lat ++ "," ++ float2str lng)
  else
    Except.error (PyErr.typeError "Unable to convert in <lat>,<long>")

/-- Whether a normaliser outcome is a raised `TypeError`. -/
def raisesTypeError (r : Except PyErr String) : Bool :=
  match r with
  | Except.error e => e.isTypeError
  | Except.ok _ => false

/-- The mutable attributes the `citymapper` class carries after
`__init__`. -/
structure citymapper where
  key : String
  base_url : String
  limit : Nat
  api_calls : Nat
  rate : Nat
  last_call_time : ℚ
deriving Repr, DecidableEq

/-- `citymapper.__init__(self, key, limit=1000)`.  Note the body assigns
`self.limit = 1000` regardless of the `limit` argument (the argument is
never read). -/
def citymapper.init (key : String) (limit : Nat) : citymapper :=
  { key := key
    base_url := "https://developer.citymapper.com/"
    limit := 1000
    api_calls := 0
    rate := 10
    last_call_time := 0 }

/-- Observable effects of one `_request` call: whether the throttling
branch was taken (and for how long it slept) and whether `requests.get`
was reached. -/
structure RequestTrace where
  slept : Bool
  sleepDuration : ℚ
  networkCalled : Bool
deriving Repr, DecidableEq

/-- `citymapper._request(self, query)`.  Wall-clock time is passed in as
`now` (the value `time.time()` returns on entry).  The source increments
`self.api_calls`, raises `StopIteration` when the incremented counter
reaches `self.limit`, and otherwise enters the throttling branch when
`delta_T = now - self.last_call_time` exceeds `60 / self.rate` (Python 2
integer division, `6` at the fixed rate of 10 per minute).  The
branch's body (`await asyncio.sleep(1)` inside a plain `def`) is not even
valid Python; its `except ImportError: time.sleep(delta_T)` fallback is
the only executable reading, so the sleep is modelled as lasting
`delta_T`, and the second `time.time()` (stored into `last_call_time`) as
`now` plus the time slept. -/
def citymapper._request (s : citymapper) (query : String) (now : ℚ) :
    Except PyErr Unit × citymapper × RequestTrace :=
  let s1 : citymapper := { s with api_calls := s.api_calls + 1 }
  if s1.api_calls ≥ s1.limit then
    (Except.error (PyErr.stopIteration "citymapper max daily API calls limit reached"),
     s1, { slept := false, sleepDuration := 0, networkCalled := false })
  else
    let delta_T : ℚ := now - s1.last_call_time
    if delta_T > ((60 / s1.rate : Nat) : ℚ) then
      ((Except.ok ()), { s1 with last_call_time := now + delta_T },
       { slept := true, sleepDuration := delta_T, networkCalled := true })
    else
      ((Except.ok ()), { s1 with last_call_time := now },
       { slept := false, sleepDuration := 0, networkCalled := true })

/-- `params['key'] = v` on a dict modelled as an insertion-ordered
association list: overwrite in place when the key exists, append
otherwise. -/
def dictSet (es : List (String × String)) (k v : String) : List (String × String) :=
  if es.any (fun p => decide (p.1 = k)) then
    es.map (fun p => if p.1 = k then (k, v) else p)
  else es ++ [(k, v)]

/-- `citymapper._make_url(self, params)`: `params.pop('node')` (a
`KeyError` when absent), `params['key'] = self.key`, then
`base_url + node + "&".join(k=v entries)`.  The mutation of the caller's
dict is modelled by also returning the post-call parameter list. -/
def citymapper._make_url (s : citymapper) (params : List (String × String)) :
    Except PyErr (String × List (String × String)) :=
  match params.lookup "node" with
  | Option.none => Except.error (PyErr.keyError "node")
  | Option.some node =>
    let params1 := params.filter (fun p => !(p.1 == "node"))
    let params2 := dictSet params1 "key" s.key
    let config_str := String.intercalate "&" (params2.map (fun p => p.1 ++ "=" ++ p.2))
    Except.ok (s.base_url ++ node ++ config_str, params2)

/-- `citymapper._transit(self, origin, destination, time=None,
time_type=None)`: builds the query dict in insertion order (`node`,
optionally `time` and `time_type`, then `startcoord`, `endcoord`).  A
supplied truthy `time` demands `time_type in ['arrival']`; any other
truthy `time_type` raises one `Exception`, a falsy one raises another.
`None` and `""` are the falsy `time`/`time_type` values here. -/
def citymapper._transit (origin destination : PyVal)
    (time : Option String) (time_type : Option String) :
    Except PyErr (List (String × String)) :=
  let params0 : List (String × String) := [("node", "api/1/traveltime/?")]
  let withTime : Except PyErr (List (String × String)) :=
    match time with
    | Option.none => Except.ok params0
    | Option.some t =>
      if t = "" then Except.ok params0
      else
        let params1 := params0 ++ [("time", t)]
        match time_type with
        | Option.some tt =>
          if tt = "arrival" then Except.ok (params1 ++ [("time_type", tt)])
          else if tt = "" then
            Except.error (PyErr.exception "time_type must be provided when a time is given")
          else
            Except.error
              (PyErr.exception "time_type must be: \"arrival\"https://citymapper.3scale.net/docs")
        | Option.none =>
          Except.error (PyErr.exception "time_type must be provided when a time is given")
  match withTime with
  | Except.error e => Except.error e
  | Except.ok params =>
    match normalize_position origin with
    | Except.error e => Except.error e
    | Except.ok sc =>
      match normalize_position destination with
      | Except.error e => Except.error e
      | Except.ok ec => Except.ok (params ++ [("startcoord", sc), ("endcoord", ec)])

/-- `citymapper.transit`: `_transit`, `_make_url`, `_request` in
sequence; an exception from either configuration step propagates and
`_request` (hence the network) is never reached. -/
def citymapper.transit (s : citymapper) (origin destination : PyVal)
    (time : Option String) (time_type : Option String) (now : ℚ) :
    Except PyErr Unit × citymapper × RequestTrace :=
  match citymapper._transit origin destination time time_type with
  | Except.error e =>
    (Except.error e, s, { slept := false, sleepDuration := 0, networkCalled := false })
  | Except.ok params =>
    match citymapper._make_url s params with
    | Except.error e =>
      (Except.error e, s, { slept := false, sleepDuration := 0, networkCalled := false })
    | Except.ok (query, _) => citymapper._request s query now

/-- Run a sequence of `_request` calls (query and clock reading for each),
threading the client state; used to state that a quota refusal is
terminal. -/
def runRequests (s : citymapper) : List (String × ℚ) → citymapper
  | [] => s
  | (q, t) :: rest => runRequests (citymapper._request s q t).2.1 rest

theorem ratMk_eq_div (n : ℤ) (d : ℕ) (h : d ≠ 0) (c : n.natAbs.Coprime d) :
    (Rat.mk' n d h c : ℚ) = (n : ℚ) / (d : ℚ) := by
  rw [Rat.mk'_eq_divInt, Rat.divInt_eq_div]
  norm_num

example : float2str 123 = "123" := by rfl
example : float2str (12301 / 100) = "123.01" := by
  have h : (12301 / 100 : ℚ) = Rat.mk' 12301 100 (by decide) (by norm_num) := by
    rw [ratMk_eq_div]; norm_num
  rw [h]; rfl
example : normalize_position (PyVal.list [123, 124]) = Except.ok "123,124" := by rfl
example : normalize_position (PyVal.dict [("lat", 123), ("lng", 124)]) =
    Except.ok "123,124" := by rfl
example : normalize_position (PyVal.str "abc") =
    Except.error (PyErr.typeError "Unable to convert in <lat>,<long>") := by rfl
example : normalize_position (PyVal.list [1]) =
    Except.error (PyErr.indexError "list index out of range") := by rfl

example :
    (citymapper._request (citymapper.init "k" 1000) "q" 0).2.1.api_calls = 1 := by
  norm_num [citymapper._request, citymapper.init]
example :
    citymapper._make_url (citymapper.init "123" 1000)
      [("node", "api/1/traveltime/?"), ("startcoord", "1,2"), ("endcoord", "1,3")] =
    Except.ok
      ("https://developer.citymapper.com/api/1/traveltime/?startcoord=1,2&endcoord=1,3&key=123",
       [("startcoord", "1,2"), ("endcoord", "1,3"), ("key", "123")]) := by rfl
example :
    citymapper._transit (PyVal.list [1, 2]) (PyVal.list [1, 3]) Option.none Option.none =
    Except.ok [("node", "api/1/traveltime/?"), ("startcoord", "1,2"), ("endcoord", "1,3")] := by
  rfl

section AssocListLemmas

/-- Removing every binding of key `k` does not change lookups of other
keys. -/
theorem lookup_filter_ne (es : List (String × String)) (k a : String) (h : a ≠ k) :
    (es.filter fun p => !(p.1 == k)).lookup a = es.lookup a := by
  induction es with
  | nil => rfl
  | cons p rest ih =>
    obtain ⟨pk, pv⟩ := p
    by_cases h1 : pk = k
    · subst h1
      simp [List.filter_cons, List.lookup, beq_false_of_ne h, ih]
    · by_cases h2 : a = pk
      · subst h2
        simp [List.filter_cons, beq_false_of_ne h1, List.lookup]
      · simp [List.filter_cons, beq_false_of_ne h1, List.lookup, beq_false_of_ne h2, ih]

/-- After removing every binding of key `k`, looking `k` up finds
nothing. -/
theorem lookup_filter_self (es : List (String × String)) (k : String) :
    (es.filter fun p => !(p.1 == k)).lookup k = Option.none := by
  induction es with
  | nil => rfl
  | cons p rest ih =>
    obtain ⟨pk, pv⟩ := p
    by_cases h1 : pk = k
    · simp [List.filter_cons, h1, ih]
    · have hk : (k == pk) = false := beq_false_of_ne (fun hkp => h1 hkp.symm)
      simp [List.filter_cons, beq_false_of_ne h1, List.lookup, hk, ih]

/-- Overwriting the binding of `k` in place makes `k` look up the new
value (case where the key occurs). -/
theorem lookup_map_set_self (k v : String) (es : List (String × String)) :
    es.any (fun p => decide (p.1 = k)) = true →
    (es.map (fun p => if p.1 = k then (k, v) else p)).lookup k = Option.some v := by
  induction es with
  | nil => intro h; simp at h
  | cons p rest ih =>
    intro h
    obtain ⟨pk, pv⟩ := p
    by_cases h1 : pk = k
    · subst h1
      simp only [List.map_cons, if_true]
      simp [List.lookup]
    · have hany : rest.any (fun p => decide (p.1 = k)) = true := by
        rw [List.any_cons] at h
        rcases Bool.or_eq_true_iff.mp h with hh | hh
        · exact absurd (of_decide_eq_true hh) h1
        · exact hh
      have hk : (k == pk) = false := beq_false_of_ne (fun hkp => h1 hkp.symm)
      simp only [List.map_cons]
      rw [if_neg h1]
      simp [List.lookup, hk, ih hany]

/-- Appending a fresh binding of `k` makes `k` look up the new value
(case where the key is absent). -/
theorem lookup_append_set_self (k v : String) (es : List (String × String)) :
    es.any (fun p => decide (p.1 = k)) = false →
    (es ++ [(k, v)]).lookup k = Option.some v := by
  induction es with
  | nil => intro h; simp [List.lookup]
  | cons p rest ih =>
    intro h
    obtain ⟨pk, pv⟩ := p
    by_cases h1 : pk = k
    · rw [List.any_cons] at h
      simp [h1] at h
    · have hrest : rest.any (fun p => decide (p.1 = k)) = false := by
        rw [List.any_cons] at h
        cases hr : rest.any (fun p => decide (p.1 = k))
        · rfl
        · rw [hr] at h
          simp at h
      have hk : (k == pk) = false := beq_false_of_ne (fun hkp => h1 hkp.symm)
      simp [List.lookup, hk, ih hrest]

/-- Overwriting the binding of `k` does not change other keys. -/
theorem lookup_map_set_ne (k v a : String) (h : a ≠ k) (es : List (String × String)) :
    (es.map (fun p => if p.1 = k then (k, v) else p)).lookup a = es.lookup a := by
  induction es with
  | nil => rfl
  | cons p rest ih =>
    obtain ⟨pk, pv⟩ := p
    by_cases h1 : pk = k
    · subst h1
      simp only [List.map_cons, if_true]
      simp [List.lookup, beq_false_of_ne h, ih]
    · simp only [List.map_cons]
      rw [if_neg h1]
      by_cases h2 : a = pk
      · subst h2
        simp [List.lookup]
      · simp [List.lookup, beq_false_of_ne h2, ih]

/-- Appending a fresh binding of `k` does not change other keys. -/
theorem lookup_append_set_ne (k v a : String) (h : a ≠ k) (es : List (String × String)) :
    (es ++ [(k, v)]).lookup a = es.lookup a := by
  induction es with
  | nil => simp [List.lookup, beq_false_of_ne h]
  | cons p rest ih =>
    obtain ⟨pk, pv⟩ := p
    by_cases h2 : a = pk
    · subst h2
      simp [List.lookup]
    · simp [List.lookup, beq_false_of_ne h2, ih]

/-- `dictSet` stores the assigned binding. -/
theorem lookup_dictSet_self (es : List (String × String)) (k v : String) :
    (dictSet es k v).lookup k = Option.some v := by
  unfold dictSet
  by_cases h : es.any (fun p => decide (p.1 = k)) = true
  · rw [if_pos h]
    exact lookup_map_set_self k v es h
  · rw [if_neg h]
    refine lookup_append_set_self k v es ?_
    cases hr : es.any (fun p => decide (p.1 = k))
    · rfl
    · exact absurd hr h

/-- `dictSet` leaves the bindings of other keys alone. -/
theorem lookup_dictSet_ne (es : List (String × String)) (k v a : String) (h : a ≠ k) :
    (dictSet es k v).lookup a = es.lookup a := by
  unfold dictSet
  by_cases hany : es.any (fun p => decide (p.1 = k)) = true
  · rw [if_pos hany]
    exact lookup_map_set_ne k v a h es
  · rw [if_neg hany]
    exact lookup_append_set_ne k v a h es

end AssocListLemmas

section RequestLemmas

/-- When the incremented counter reaches the limit, `_request` raises
`StopIteration`, keeps the incremented counter, and does not reach the
network. -/
theorem request_exceed_eq (s : citymapper) (query : String) (now : ℚ)
    (h : s.api_calls + 1 ≥ s.limit) :
    citymapper._request s query now =
      (Except.error (PyErr.stopIteration "citymapper max daily API calls limit reached"),
       { s with api_calls := s.api_calls + 1 },
       { slept := false, sleepDuration := 0, networkCalled := false }) := by
  unfold citymapper._request
  dsimp only
  rw [if_pos h]

/-- `_request` never changes the configured limit. -/
theorem request_limit_eq (s : citymapper) (query : String) (now : ℚ) :
    (citymapper._request s query now).2.1.limit = s.limit := by
  unfold citymapper._request
  dsimp only
  split
  · rfl
  · split <;> rfl

/-- `_request` always increments the lifetime counter, limit reached or
not. -/
theorem request_api_calls_eq (s : citymapper) (query : String) (now : ℚ) :
    (citymapper._request s query now).2.1.api_calls = s.api_calls + 1 := by
  unfold citymapper._request
  dsimp only
  split
  · rfl
  · split <;> rfl

/-- Once the counter has reached the limit it stays there: the quota
condition survives any further sequence of `_request` calls. -/
theorem runRequests_exceed (calls : List (String × ℚ)) (s : citymapper)
    (h : s.limit ≤ s.api_calls + 1) :
    (runRequests s calls).limit ≤ (runRequests s calls).api_calls + 1 := by
  induction calls generalizing s with
  | nil => exact h
  | cons c rest ih =>
    simp only [runRequests]
    exact ih _ (by rw [request_limit_eq, request_api_calls_eq]; omega)

end RequestLemmas

/-- C1: the spec claims the dispatcher's lifetime ceiling is the one
supplied at construction (1000 only as the default), so a client built
with ceiling 2 must refuse its third dispatch.  The code instead assigns
`self.limit = 1000` regardless of the constructor argument: after a client
is built with ceiling 2 and two dispatches are issued, the third dispatch
still succeeds and reaches the network. -/
theorem ceiling_two_third_dispatch_still_calls_network :
    (citymapper.init "k" 2).limit = 1000 ∧
    (citymapper._request (runRequests (citymapper.init "k" 2) [("q", 0), ("q", 0)]) "q" 0).1 =
      Except.ok () ∧
    (citymapper._request (runRequests (citymapper.init "k" 2) [("q", 0), ("q", 0)])
        "q" 0).2.2.networkCalled = true := by
  refine ⟨rfl, ?_, ?_⟩ <;>
    norm_num [runRequests, citymapper._request, citymapper.init]

/-- C2: the spec claims `_request` sleeps exactly when the elapsed time
since the previous dispatch is below `60 / rate = 6` seconds, so that two
back-to-back dispatches end up at least 6 seconds apart.  The code's test
is inverted (`delta_T > 60 / rate` triggers the sleep): a dispatch issued
at the very same clock reading as the previous one (elapsed 0 < 6) does
not sleep and reaches the network immediately, while a dispatch issued 10
seconds later (elapsed 10 ≥ 6) does sleep. -/
theorem throttle_condition_inverted :
    (citymapper._request
        { citymapper.init "k" 1000 with api_calls := 1, last_call_time := 100 }
        "q" 100).2.2.slept = false ∧
    (citymapper._request
        { citymapper.init "k" 1000 with api_calls := 1, last_call_time := 100 }
        "q" 100).2.2.networkCalled = true ∧
    (citymapper._request
        { citymapper.init "k" 1000 with api_calls := 1, last_call_time := 100 }
        "q" 100).2.1.last_call_time = 100 ∧
    (citymapper._request
        { citymapper.init "k" 1000 with api_calls := 1, last_call_time := 100 }
        "q" 110).2.2.slept = true := by
  refine ⟨?_, ?_, ?_, ?_⟩ <;>
    norm_num [citymapper._request, citymapper.init]

/-- C3: on every dispatch the lifetime counter is incremented first; when
the incremented counter reaches or exceeds the configured maximum the
dispatch raises `StopIteration` before any network call, and the refusal
is terminal: the counter is never reset, so after any further sequence of
dispatches the next one still fails the same way. -/
theorem quota_refusal_is_terminal (s : citymapper) (query : String) (now : ℚ)
    (h : s.api_calls + 1 ≥ s.limit) :
    (citymapper._request s query now).1 =
      Except.error (PyErr.stopIteration "citymapper max daily API calls limit reached") ∧
    (citymapper._request s query now).2.2.networkCalled = false ∧
    (citymapper._request s query now).2.1.api_calls = s.api_calls + 1 ∧
    ∀ (calls : List (String × ℚ)) (query' : String) (now' : ℚ),
      (citymapper._request (runRequests (citymapper._request s query now).2.1 calls)
          query' now').1 =
        Except.error (PyErr.stopIteration "citymapper max daily API calls limit reached") := by
  rw [request_exceed_eq s query now h]
  refine ⟨rfl, rfl, rfl, ?_⟩
  intro calls query' now'
  have hbase : ({ s with api_calls := s.api_calls + 1 } : citymapper).limit ≤
      ({ s with api_calls := s.api_calls + 1 } : citymapper).api_calls + 1 := by
    dsimp only
    omega
  have hstay := runRequests_exceed calls { s with api_calls := s.api_calls + 1 } hbase
  rw [request_exceed_eq _ query' now' hstay]

/-- Closed instance of `quota_refusal_is_terminal`: a client one call
short of its (hard-coded) limit of 1000 refuses the next dispatch and the
one after that. -/
theorem quota_refusal_is_terminal_witness :
    (citymapper._request { citymapper.init "k" 1000 with api_calls := 999 } "q" 0).1 =
      Except.error (PyErr.stopIteration "citymapper max daily API calls limit reached") ∧
    (citymapper._request { citymapper.init "k" 1000 with api_calls := 999 }
        "q" 0).2.2.networkCalled = false ∧
    (citymapper._request { citymapper.init "k" 1000 with api_calls := 999 }
        "q" 0).2.1.api_calls = 999 + 1 ∧
    ∀ (calls : List (String × ℚ)) (query' : String) (now' : ℚ),
      (citymapper._request
          (runRequests
            (citymapper._request { citymapper.init "k" 1000 with api_calls := 999 }
              "q" 0).2.1 calls)
          query' now').1 =
        Except.error (PyErr.stopIteration "citymapper max daily API calls limit reached") :=
  quota_refusal_is_terminal { citymapper.init "k" 1000 with api_calls := 999 } "q" 0
    (by norm_num [citymapper.init])

/-- C5: on the doctest-style input, `_make_url` removes the endpoint
selector `node` from the parameter set, injects `key=123`, and returns a
URL extending `https://developer.citymapper.com/api/1/traveltime/?` whose
parameter set holds exactly one `key=123`, one `startcoord=1,2` and one
`endcoord=1,3` entry. -/
theorem make_url_traveltime_scenario :
    ∃ url rest ps,
      citymapper._make_url (citymapper.init "123" 1000)
        [("node", "api/1/traveltime/?"), ("startcoord", "1,2"), ("endcoord", "1,3")] =
        Except.ok (url, ps) ∧
      url = "https://developer.citymapper.com/api/1/traveltime/?" ++ rest ∧
      (ps.map fun p => p.1 ++ "=" ++ p.2).count "key=123" = 1 ∧
      (ps.map fun p => p.1 ++ "=" ++ p.2).count "startcoord=1,2" = 1 ∧
      (ps.map fun p => p.1 ++ "=" ++ p.2).count "endcoord=1,3" = 1 ∧
      ps.lookup "node" = Option.none ∧
      ps.lookup "key" = Option.some "123" :=
  ⟨"https://developer.citymapper.com/api/1/traveltime/?startcoord=1,2&endcoord=1,3&key=123",
   "startcoord=1,2&endcoord=1,3&key=123",
   [("startcoord", "1,2"), ("endcoord", "1,3"), ("key", "123")],
   by rfl, by rfl, by rfl, by rfl, by rfl, by rfl, by rfl⟩

/-- C6: a keyed position `{lat: a, lng: b}` and the ordered pair `[a, b]`
with the same numeric values normalise to the same string (the embedding
is a pure function, matching the source's absence of side effects). -/
theorem normalize_position_keyed_pair_agree (a b : ℚ) :
    normalize_position (PyVal.dict [("lat", a), ("lng", b)]) =
      normalize_position (PyVal.list [a, b]) := by
  rfl

/-- C7: trailing zeros and a trailing decimal point are stripped:
`(123, 124)` renders as `"123,124"` and `(123.01, 124.00)` as
`"123.01,124"` (`124.00` and `123.01` denote the exact rationals `124`
and `12301/100`). -/
theorem normalize_position_strips_trailing_zeros :
    normalize_position (PyVal.list [123, 124]) = Except.ok "123,124" ∧
    normalize_position (PyVal.list [12301 / 100, 124]) = Except.ok "123.01,124" := by
  constructor
  · rfl
  · have h : (12301 / 100 : ℚ) = Rat.mk' 12301 100 (by decide) (by norm_num) := by
      rw [ratMk_eq_div]; norm_num
    rw [h]
    rfl

/-- If `_transit` raises, `transit` propagates the exception and the
dispatch (hence the network call) is never reached. -/
theorem transit_error_no_network (s : citymapper) (origin destination : PyVal)
    (time tt : Option String) (now : ℚ) (e : PyErr)
    (h : citymapper._transit origin destination time tt = Except.error e) :
    (citymapper.transit s origin destination time tt now).2.2.networkCalled = false := by
  unfold citymapper.transit
  rw [h]

/-- `_transit` only succeeds when the origin normalises. -/
theorem transit_ok_origin (origin destination : PyVal) (time tt : Option String)
    (ps : List (String × String))
    (h : citymapper._transit origin destination time tt = Except.ok ps) :
    ∃ so, normalize_position origin = Except.ok so := by
  cases hno : normalize_position origin with
  | ok so => exact ⟨so, rfl⟩
  | error e =>
    exfalso
    unfold citymapper._transit at h
    dsimp only at h
    rw [hno] at h
    repeat' split at h
    all_goals simp_all

/-- C4: with a non-empty time and normalisable endpoints, the qualifier
`"arrival"` yields a parameter set carrying both `time` and `time_type`;
any other qualifier, and an omitted qualifier, raise a configuration
`Exception`; an erroring `_transit` means `transit` never reaches the
network. -/
theorem transit_time_type_validation (origin destination : PyVal) (t : String)
    (ht : t ≠ "") (so sd : String)
    (ho : normalize_position origin = Except.ok so)
    (hd : normalize_position destination = Except.ok sd) :
    (∃ ps, citymapper._transit origin destination (Option.some t) (Option.some "arrival") =
        Except.ok ps ∧
      ps.lookup "time" = Option.some t ∧
      ps.lookup "time_type" = Option.some "arrival") ∧
    (∀ tt, tt ≠ "arrival" →
      ∃ msg, citymapper._transit origin destination (Option.some t) (Option.some tt) =
        Except.error (PyErr.exception msg)) ∧
    (∃ msg, citymapper._transit origin destination (Option.some t) Option.none =
      Except.error (PyErr.exception msg)) ∧
    (∀ (s : citymapper) (tt : Option String) (now : ℚ) (e : PyErr),
      citymapper._transit origin destination (Option.some t) tt = Except.error e →
      (citymapper.transit s origin destination (Option.some t) tt now).2.2.networkCalled
        = false) := by
  refine ⟨⟨[("node", "api/1/traveltime/?"), ("time", t), ("time_type", "arrival"),
      ("startcoord", so), ("endcoord", sd)], ?_, ?_, ?_⟩, ?_, ?_, ?_⟩
  · simp [citymapper._transit, ht, ho, hd]
  · rfl
  · rfl
  · intro tt htt
    by_cases he : tt = ""
    · subst he
      exact ⟨"time_type must be provided when a time is given",
        by simp [citymapper._transit, ht]⟩
    · exact ⟨"time_type must be: \"arrival\"https://citymapper.3scale.net/docs",
        by simp [citymapper._transit, ht, htt, he]⟩
  · exact ⟨"time_type must be provided when a time is given",
      by simp [citymapper._transit, ht]⟩
  · intro s tt now e h
    exact transit_error_no_network s origin destination (Option.some t) tt now e h

/-- Closed instance of `transit_time_type_validation` at concrete
endpoints and a concrete ISO-8601 time. -/
theorem transit_time_type_validation_witness :
    ∃ ps, citymapper._transit (PyVal.list [1, 2]) (PyVal.list [1, 3])
        (Option.some "2014-11-06T19:00:02-0500") (Option.some "arrival") = Except.ok ps ∧
      ps.lookup "time" = Option.some "2014-11-06T19:00:02-0500" ∧
      ps.lookup "time_type" = Option.some "arrival" :=
  (transit_time_type_validation (PyVal.list [1, 2]) (PyVal.list [1, 3])
    "2014-11-06T19:00:02-0500" (by decide) "1,2" "1,3" (by rfl) (by rfl)).1

/-- C8: a plain string is rejected by `islist` and by the normaliser with
a `TypeError`, never mis-parsed character by character, and a transit
call whose origin is a string never reaches the network. -/
theorem string_position_rejected (str : String) :
    islist (PyVal.str str) = false ∧
    normalize_position (PyVal.str str) =
      Except.error (PyErr.typeError "Unable to convert in <lat>,<long>") ∧
    ∀ (s : citymapper) (destination : PyVal) (time tt : Option String) (now : ℚ),
      (citymapper.transit s (PyVal.str str) destination time tt now).2.2.networkCalled
        = false := by
  refine ⟨rfl, rfl, ?_⟩
  intro s destination time tt now
  cases h : citymapper._transit (PyVal.str str) destination time tt with
  | error e => exact transit_error_no_network s _ destination time tt now e h
  | ok ps =>
    obtain ⟨so, hso⟩ := transit_ok_origin _ destination time tt ps h
    rw [show normalize_position (PyVal.str str) =
        Except.error (PyErr.typeError "Unable to convert in <lat>,<long>") from rfl] at hso
    exact absurd hso (by simp)

/-- C9 fails as stated: the one-element list `[1]` is neither a valid
mapping nor a sequence of two elements, yet the normaliser raises an
`IndexError` from the sequence branch's element access, not a
`TypeError`. -/
theorem short_list_raises_index_error_not_type_error :
    raisesTypeError (normalize_position (PyVal.list [1])) = false ∧
    normalize_position (PyVal.list [1]) =
      Except.error (PyErr.indexError "list index out of range") :=
  ⟨rfl, rfl⟩

/-- C9 amended: an input that is neither a mapping with both `lat` and
`lng` keys nor a sequence of at least two elements makes the normaliser
fail — with a `TypeError` for every non-sequence input, but with an
`IndexError` (from the unguarded element accesses) for a sequence of
fewer than two elements. -/
theorem normalize_position_invalid_inputs (x : PyVal)
    (hdict : ∀ es, x = PyVal.dict es →
      es.lookup "lat" = Option.none ∨ es.lookup "lng" = Option.none)
    (hlist : ∀ es, x = PyVal.list es → es.length < 2) :
    ∃ e, normalize_position x = Except.error e ∧
      ((∀ es, x ≠ PyVal.list es) → e.isTypeError = true) ∧
      ((∃ es, x = PyVal.list es) → e.isIndexError = true) := by
  cases x with
  | dict es =>
    refine ⟨PyErr.typeError "Position dict must contain lat and lng keys.", ?_,
      fun _ => rfl, ?_⟩
    · cases hla : es.lookup "lat" with
      | none => simp [normalize_position, isdict, dictGet, hla]
      | some la =>
        cases hlb : es.lookup "lng" with
        | none => simp [normalize_position, isdict, dictGet, hla, hlb]
        | some lb =>
          rcases hdict es rfl with h | h
          · rw [hla] at h
            simp at h
          · rw [hlb] at h
            simp at h
    · rintro ⟨es2, h2⟩
      simp at h2
  | list es =>
    have hlen := hlist es rfl
    refine ⟨PyErr.indexError "list index out of range", ?_, ?_, fun _ => rfl⟩
    · cases es with
      | nil => rfl
      | cons a rest =>
        cases rest with
        | nil => rfl
        | cons b r2 =>
          exfalso
          simp [List.length_cons] at hlen
          omega
    · intro hne
      exact absurd rfl (hne es)
  | str s =>
    exact ⟨PyErr.typeError "Unable to convert in <lat>,<long>", rfl, fun _ => rfl,
      by rintro ⟨es2, h2⟩; simp at h2⟩
  | num q =>
    exact ⟨PyErr.typeError "Unable to convert in <lat>,<long>", rfl, fun _ => rfl,
      by rintro ⟨es2, h2⟩; simp at h2⟩
  | pynone =>
    exact ⟨PyErr.typeError "Unable to convert in <lat>,<long>", rfl, fun _ => rfl,
      by rintro ⟨es2, h2⟩; simp at h2⟩

/-- Closed instance of `normalize_position_invalid_inputs` at the string
input `"abc"`. -/
theorem normalize_position_invalid_inputs_witness :
    ∃ e, normalize_position (PyVal.str "abc") = Except.error e ∧
      ((∀ es, PyVal.str "abc" ≠ PyVal.list es) → e.isTypeError = true) ∧
      ((∃ es, PyVal.str "abc" = PyVal.list es) → e.isIndexError = true) :=
  normalize_position_invalid_inputs (PyVal.str "abc")
    (fun es h => absurd h (by simp))
    (fun es h => absurd h (by simp))

/-- C10: `_make_url` mutates the parameter mapping it is given (the
post-call mapping is the one the embedding returns): the `node` entry is
gone, a `key` entry bound to the client's API key has appeared, and every
other key still looks up exactly its old value. -/
theorem make_url_mutates_params (s : citymapper) (params : List (String × String))
    (node : String) (h : params.lookup "node" = Option.some node) :
    ∃ url ps, citymapper._make_url s params = Except.ok (url, ps) ∧
      ps.lookup "node" = Option.none ∧
      ps.lookup "key" = Option.some s.key ∧
      ∀ a, a ≠ "node" → a ≠ "key" → ps.lookup a = params.lookup a := by
  refine ⟨s.base_url ++ node ++ String.intercalate "&"
      ((dictSet (params.filter fun p => !(p.1 == "node")) "key" s.key).map
        (fun p => p.1 ++ "=" ++ p.2)),
    dictSet (params.filter fun p => !(p.1 == "node")) "key" s.key, ?_, ?_, ?_, ?_⟩
  · unfold citymapper._make_url
    rw [h]
  · rw [lookup_dictSet_ne _ _ _ _ (by decide)]
    exact lookup_filter_self _ _
  · exact lookup_dictSet_self _ _ _
  · intro a h1 h2
    rw [lookup_dictSet_ne _ _ _ _ h2]
    exact lookup_filter_ne _ _ _ h1

/-- Closed instance of `make_url_mutates_params` on a three-entry
parameter mapping. -/
theorem make_url_mutates_params_witness :
    ∃ url ps, citymapper._make_url (citymapper.init "K" 1000)
        [("a", "b"), ("node", "n"), ("c", "d")] = Except.ok (url, ps) ∧
      ps.lookup "node" = Option.none ∧
      ps.lookup "key" = Option.some (citymapper.init "K" 1000).key ∧
      ∀ a, a ≠ "node" → a ≠ "key" →
        ps.lookup a = List.lookup a [("a", "b"), ("node", "n"), ("c", "d")] :=
  make_url_mutates_params (citymapper.init "K" 1000)
    [("a", "b"), ("node", "n"), ("c", "d")] "n" (by rfl)
